import Mathlib

/-!
Verification development for the `runas` privilege-elevation library.

The embedding models, from the Python source:
  * the framed transport `StdPipe.read` / `StdPipe.write` (src/runas/base.py),
    with byte streams as `List Nat` and the 4-byte little-endian length
    prefix made explicit;
  * the pickled value universe and the remote-call protocol of
    `SudoProxy` (src/runas/__init__.py): the helper dispatch loop `run`,
    the caller-side `__getattr__` wrapper, `start`, `close`, `terminate`;
  * the POSIX credential handshake of `spawn_sudo` (src/runas/posix.py);
  * the Windows privilege query `can_get_root` (src/runas/win32.py).

Fallible Python operations are modelled with `Option` / `Except`; raising
an exception corresponds to an error value.  All definitions are
executable (structural recursion, fuel where the Python loop is unbounded).
-/

/-- Bytes of a string, one entry per character code point.  Models the
byte view of a Python string or bytes literal at the granularity the
claims need. -/
def strBytes (s : String) : List Nat := s.data.map Char.toNat

/-- Inverse of `strBytes`: rebuild a string from character codes. -/
def strOf (l : List Nat) : String := String.mk (l.map Char.ofNat)

theorem strBytes_length (s : String) : (strBytes s).length = s.length := by
  rw [strBytes, List.length_map]
  rfl

theorem strOf_strBytes (s : String) : strOf (strBytes s) = s := by
  have hc : Char.ofNat ∘ Char.toNat = id := funext fun c => Char.ofNat_toNat c
  apply String.ext
  show (s.data.map Char.toNat).map Char.ofNat = s.data
  rw [List.map_map, hc, List.map_id]

/-- Model of `struct.pack("I", n)`: the four bytes of `n` in little-endian
order.  `posix`/`win32` hosts are little-endian, which is the native order
used by the Python code. -/
def pack32 (n : Nat) : List Nat :=
  [n % 256, n / 256 % 256, n / 65536 % 256, n / 16777216 % 256]

/-- Model of `struct.unpack("I", b)[0]` on a four-byte list. -/
def unpack32 (l : List Nat) : Nat :=
  match l with
  | [a, b, c, d] => a + 256 * b + 65536 * c + 16777216 * d
  | _ => 0

theorem pack32_length (n : Nat) : (pack32 n).length = 4 := rfl

theorem unpack32_pack32 (n : Nat) (h : n < 2 ^ 32) : unpack32 (pack32 n) = n := by
  simp only [pack32, unpack32]
  omega

/-- Model of `StdPipe.read` (src/runas/base.py lines 61-73): read a 4-byte
size, then that many bytes of body.  `none` models raising `EOFError`,
which is the only failure the Python method can raise: it is raised when
fewer than 4 prefix bytes, or fewer than `sz` body bytes, are available.
Returns the payload together with the unconsumed remainder of the
stream. -/
def StdPipe.read (s : List Nat) : Option (List Nat × List Nat) :=
  let szb := s.take 4
  if szb.length < 4 then none
  else
    let sz := unpack32 szb
    let body := (s.drop 4).take sz
    if body.length < sz then none
    else some (body, (s.drop 4).drop sz)

/-- Model of `StdPipe.write` (src/runas/base.py lines 75-81): emit
`struct.pack("I", len(data))` followed by `data`.  `struct.pack("I", n)`
raises `struct.error` for `n ≥ 2^32`; `none` models that raise. -/
def StdPipe.write (data : List Nat) : Option (List Nat) :=
  if data.length < 2 ^ 32 then some (pack32 data.length ++ data) else none

/-- One frame as it appears on the wire for a raw byte payload. -/
def frameOfRaw (data : List Nat) : List Nat := pack32 data.length ++ data

theorem StdPipe.write_eq (data : List Nat) (h : data.length < 2 ^ 32) :
    StdPipe.write data = some (frameOfRaw data) := by
  unfold StdPipe.write
  rw [if_pos h]
  rfl

/-- Reading a well-formed frame yields exactly the payload and leaves the
rest of the stream untouched. -/
theorem StdPipe.read_frame (data rest : List Nat) (h : data.length < 2 ^ 32) :
    StdPipe.read (frameOfRaw data ++ rest) = some (data, rest) := by
  have h4 : (pack32 data.length).length = 4 := pack32_length _
  have ht : (pack32 data.length ++ (data ++ rest)).take 4 = pack32 data.length :=
    List.take_left' h4
  have hd : (pack32 data.length ++ (data ++ rest)).drop 4 = data ++ rest :=
    List.drop_left' h4
  have ht2 : (data ++ rest).take data.length = data := List.take_left' rfl
  have hd2 : (data ++ rest).drop data.length = rest := List.drop_left' rfl
  simp only [StdPipe.read, frameOfRaw, List.append_assoc, ht, hd, h4,
    unpack32_pack32 _ h, ht2, hd2]
  simp

/-- A successful `StdPipe.read` consumes at least the four prefix bytes. -/
theorem StdPipe.read_consumes (s data rest : List Nat)
    (h : StdPipe.read s = some (data, rest)) : rest.length + 4 ≤ s.length := by
  simp only [StdPipe.read] at h
  split at h
  · exact absurd h (by simp)
  · split at h
    · exact absurd h (by simp)
    · rename_i h1 _
      simp only [Option.some.injEq, Prod.mk.injEq] at h
      have hlen : (s.take 4).length = min 4 s.length := List.length_take ..
      rw [← h.2]
      simp only [List.length_drop]
      omega

/-- The universe of serializable values exchanged on the channel.  The
helper and caller exchange pickled Python values; the claims only need
`None`, booleans, integers, strings, exception objects, and tuples.  A
tuple is represented as a chain of `ptcons` cells ending in `ptnil`, so
`(a, b)` is `ptcons a (ptcons b ptnil)`. -/
inductive PVal where
  | pnone
  | pbool (b : Bool)
  | pint (n : Int)
  | pstr (s : String)
  | pexc (kind : String) (msg : String)
  | ptnil
  | ptcons (hd : PVal) (tl : PVal)
deriving DecidableEq, Repr

/-- Modelled from the spec: `pickle.dumps`, the serialization format used
across the process boundary (an external stdlib facility, not repository
code).  A concrete injective tag-prefixed token encoding stands in for
the pickle wire format; the only property the protocol relies on is that
`loads` inverts `dumps`. -/
def dumps : PVal → List Nat
  | .pnone => [0]
  | .pbool b => [1, cond b 1 0]
  | .pint n => [2, if n < 0 then 1 else 0, n.natAbs]
  | .pstr s => 3 :: s.length :: strBytes s
  | .pexc k m => (5 :: k.length :: strBytes k) ++ (m.length :: strBytes m)
  | .ptnil => [6]
  | .ptcons a t => 7 :: (dumps a ++ dumps t)

/-- Modelled from the spec: the decoder half of the serialization format.
Fuel-indexed so the recursion is structural; `parse fuel s` with
`s.length ≤ fuel` decodes one value and returns the remaining tokens.
`none` models `pickle.UnpicklingError`. -/
def parse : Nat → List Nat → Option (PVal × List Nat)
  | 0, _ => none
  | _ + 1, 0 :: r => some (.pnone, r)
  | _ + 1, 1 :: b :: r => some (.pbool (b = 1), r)
  | _ + 1, 2 :: sg :: m :: r => some (.pint (if sg = 1 then -(m : Int) else (m : Int)), r)
  | _ + 1, 3 :: n :: r =>
    if n ≤ r.length then some (.pstr (strOf (r.take n)), r.drop n) else none
  | _ + 1, 5 :: n1 :: r1 =>
    if n1 ≤ r1.length then
      match r1.drop n1 with
      | n2 :: r2 =>
        if n2 ≤ r2.length then
          some (.pexc (strOf (r1.take n1)) (strOf (r2.take n2)), r2.drop n2)
        else none
      | [] => none
    else none
  | _ + 1, 6 :: r => some (.ptnil, r)
  | fuel + 1, 7 :: r =>
    match parse fuel r with
    | some (a, r1) =>
      match parse fuel r1 with
      | some (b, r2) => some (.ptcons a b, r2)
      | none => none
    | none => none
  | _ + 1, _ => none

/-- Modelled from the spec: `pickle.loads` on a complete payload. -/
def loads (data : List Nat) : Option PVal :=
  match parse data.length data with
  | some (v, []) => some v
  | _ => none

theorem parse_dumps (v : PVal) :
    ∀ (fuel : Nat) (rest : List Nat), (dumps v).length ≤ fuel →
      parse fuel (dumps v ++ rest) = some (v, rest) := by
  induction v with
  | pnone =>
    intro fuel rest h
    match fuel, h with
    | f + 1, _ => simp [dumps, parse]
  | pbool b =>
    intro fuel rest h
    match fuel, h with
    | f + 1, _ => cases b <;> simp [dumps, parse]
  | pint n =>
    intro fuel rest h
    match fuel, h with
    | f + 1, _ =>
      by_cases hn : n < 0
      · simp only [dumps, if_pos hn, List.cons_append, parse]
        have habs : ((n.natAbs : Int)) = -n := Int.ofNat_natAbs_of_nonpos (le_of_lt hn)
        simp [habs]
      · simp only [dumps, if_neg hn, List.cons_append, parse]
        rw [Int.natAbs_of_nonneg (le_of_not_lt hn)]
        simp
  | pstr s =>
    intro fuel rest h
    match fuel, h with
    | f + 1, _ =>
      have hbs : (strBytes s).length = s.length := strBytes_length s
      have ht : (strBytes s ++ rest).take s.length = strBytes s := List.take_left' hbs
      have hd : (strBytes s ++ rest).drop s.length = rest := List.drop_left' hbs
      have hle : s.length ≤ (strBytes s ++ rest).length := by
        rw [List.length_append, hbs]
        omega
      simp only [dumps, List.cons_append, List.append_eq, parse, if_pos hle, ht, hd,
        strOf_strBytes]
  | pexc k m =>
    intro fuel rest h
    match fuel, h with
    | f + 1, _ =>
      have hbk : (strBytes k).length = k.length := strBytes_length k
      have hbm : (strBytes m).length = m.length := strBytes_length m
      have ht1 : (strBytes k ++ (m.length :: (strBytes m ++ rest))).take k.length
          = strBytes k := List.take_left' hbk
      have hd1 : (strBytes k ++ (m.length :: (strBytes m ++ rest))).drop k.length
          = m.length :: (strBytes m ++ rest) := List.drop_left' hbk
      have ht2 : (strBytes m ++ rest).take m.length = strBytes m := List.take_left' hbm
      have hd2 : (strBytes m ++ rest).drop m.length = rest := List.drop_left' hbm
      have hk1 : k.length ≤ (strBytes k ++ (m.length :: (strBytes m ++ rest))).length := by
        simp only [List.length_append, List.length_cons, hbk]
        omega
      have hm1 : m.length ≤ (strBytes m ++ rest).length := by
        rw [List.length_append, hbm]
        omega
      simp only [dumps, List.cons_append, List.append_assoc, List.nil_append,
        List.append_eq, parse, if_pos hk1, hd1, ht1]
      simp only [if_pos hm1, ht2, hd2, strOf_strBytes]
  | ptnil =>
    intro fuel rest h
    match fuel, h with
    | f + 1, _ => simp [dumps, parse]
  | ptcons a t iha iht =>
    intro fuel rest h
    match fuel, h with
    | f + 1, hf =>
      have hla : (dumps a).length ≤ f := by
        simp only [dumps, List.length_cons, List.length_append] at hf
        omega
      have hlt : (dumps t).length ≤ f := by
        simp only [dumps, List.length_cons, List.length_append] at hf
        omega
      simp only [dumps, List.cons_append, List.append_assoc, List.append_eq, parse,
        iha f (dumps t ++ rest) hla, iht f rest hlt]

theorem loads_dumps (v : PVal) : loads (dumps v) = some v := by
  unfold loads
  have h : dumps v = dumps v ++ [] := (List.append_nil _).symm
  rw [h]
  rw [parse_dumps v _ [] (by rw [← h])]

/-- The check `attr.startswith("_")` of src/runas/__init__.py line 124,
stated on the character list of the name since the tested marker is the
single character `_`. -/
def startsWithUnderscore (s : String) : Bool :=
  match s.data with
  | c :: _ => c = '_'
  | [] => false

/-- Build the `PVal` tuple for a Lean-level argument list, as the caller
wrapper does with `args` in `__getattr__`. -/
def tupOf : List PVal → PVal
  | [] => .ptnil
  | v :: vs => .ptcons v (tupOf vs)

/-- Python iteration as used by `method(*args)`: tuples yield their
elements, strings yield their one-character substrings, everything else
raises `TypeError` (modelled by `none`).  Improper `ptcons` chains do not
denote Python tuples and also yield `none`. -/
def pyIter : PVal → Option (List PVal)
  | .ptnil => some []
  | .ptcons a t =>
    match pyIter t with
    | some l => some (a :: l)
    | none => none
  | .pstr s => some (s.data.map fun c => PVal.pstr (String.mk [c]))
  | _ => none

theorem pyIter_tupOf (l : List PVal) : pyIter (tupOf l) = some l := by
  induction l with
  | nil => rfl
  | cons v vs ih => simp [tupOf, pyIter, ih]

/-- Python 2-tuple unpacking `a, b = v` as used by `methname, args = call`
(src/runas/__init__.py line 110): succeeds on exact pairs and on
two-character strings, raises `ValueError`/`TypeError` (modelled by
`none`) otherwise. -/
def unpack2 : PVal → Option (PVal × PVal)
  | .ptcons a (.ptcons b .ptnil) => some (a, b)
  | .pstr s =>
    match s.data with
    | [c1, c2] => some (.pstr (String.mk [c1]), .pstr (String.mk [c2]))
    | _ => none
  | _ => none

/-- Python truthiness, as used by `if not success` in the caller wrapper
(src/runas/__init__.py line 136). -/
def pyTruthy : PVal → Bool
  | .pnone => false
  | .pbool b => b
  | .pint n => decide (n ≠ 0)
  | .pstr s => decide (s.length ≠ 0)
  | .pexc _ _ => true
  | .ptnil => false
  | .ptcons _ _ => true

/-- The target object bound to the helper: a resolution map from method
names to method implementations.  A method takes the argument list and
either returns a value or raises an exception value (`Except.error`). -/
structure Target where
  methods : String → Option (List PVal → Except PVal PVal)

/-- Errors a caller-side operation can raise.  `raised e` is the remote
exception value re-raised by `raise result`; the `runtimeError` messages
are the literal strings of the source. -/
inductive PyErr where
  | eofError
  | structError
  | unpicklingError
  | valueError
  | attrError (name : String)
  | runtimeError (msg : String)
  | raised (e : PVal)
deriving DecidableEq, Repr

/-- The Call Envelope the caller wrapper pickles: `(method_name, args)`
(src/runas/__init__.py line 133). -/
def callEnv (m : String) (args : List PVal) : PVal :=
  .ptcons (.pstr m) (.ptcons (tupOf args) .ptnil)

/-- A failing Result Envelope `(False, e)` (src/runas/__init__.py
line 115). -/
def failEnv (e : PVal) : PVal := .ptcons (.pbool false) (.ptcons e .ptnil)

/-- A successful Result Envelope `(True, res)` (src/runas/__init__.py
line 117). -/
def okEnv (r : PVal) : PVal := .ptcons (.pbool true) (.ptcons r .ptnil)

/-- One frame carrying the encoding of a value. -/
def frameOf (v : PVal) : List Nat := frameOfRaw (dumps v)

/-- The helper-side handling of one decoded Call Envelope, lines 110-117
of src/runas/__init__.py: `methname, args = call` already done by
`unpack2`; this models the inner try block `method = getattr(self.target,
methname); res = method(*args)` with `except Exception as e` producing a
failing envelope.  `getattr` with a non-string name raises `TypeError`;
a missing attribute raises `AttributeError`; `*args` on a non-iterable
raises `TypeError`; all are caught and become `(False, e)`. -/
def dispatchCall (t : Target) (mv av : PVal) : PVal :=
  match mv with
  | .pstr m =>
    match t.methods m with
    | none => failEnv (.pexc "AttributeError" m)
    | some f =>
      match pyIter av with
      | none => failEnv (.pexc "TypeError" "argument after * must be an iterable")
      | some args =>
        match f args with
        | .error e => failEnv e
        | .ok r => okEnv r
  | _ => failEnv (.pexc "TypeError" "attribute name must be string")

/-- The helper dispatch loop of `SudoProxy.run` (src/runas/__init__.py
lines 101-119), reading call frames from `s` and returning the bytes it
writes back.  Fuel-indexed so the recursion is structural; each
iteration consumes at least 4 bytes of `s`, so any fuel of at least
`s.length` gives the exact loop behaviour.  Loop exits: `EOFError` on
read (peer gone) breaks without a response; an undecodable payload or a
failed 2-tuple unpack raises out of the loop; the `"CLOSE"` sentinel
answers `"CLOSING"` and breaks. -/
def SudoProxy.runLoop (t : Target) : Nat → List Nat → List Nat
  | 0, _ => []
  | fuel + 1, s =>
    match StdPipe.read s with
    | none => []
    | some (data, rest) =>
      match loads data with
      | none => []
      | some call =>
        if call = .pstr "CLOSE" then
          match StdPipe.write (dumps (.pstr "CLOSING")) with
          | some fr => fr
          | none => []
        else
          match unpack2 call with
          | none => []
          | some (mv, av) =>
            match StdPipe.write (dumps (dispatchCall t mv av)) with
            | some fr => fr ++ SudoProxy.runLoop t fuel rest
            | none => []

/-- The helper loop with adequate fuel: the canonical meaning of the
`while True` loop on a finite incoming stream. -/
def SudoProxy.loop (t : Target) (s : List Nat) : List Nat :=
  SudoProxy.runLoop t s.length s

/-- `SudoProxy.run` (src/runas/__init__.py lines 98-121): write the raw
`READY` marker as one frame, then serve the dispatch loop.  The
`self.target.sudo_proxy = self` side effect has no observable protocol
behaviour and is not modelled. -/
def SudoProxy.run (t : Target) (s : List Nat) : List Nat :=
  match StdPipe.write (strBytes "READY") with
  | some fr => fr ++ SudoProxy.loop t s
  | none => []

/-- `SudoProxy.__getattr__` outcome (src/runas/__init__.py lines
123-141): an `AttributeError` raised locally, or a bound wrapper for the
resolved method name. -/
inductive GetattrOutcome where
  | attrError (name : String)
  | wrapper (methname : String)
deriving DecidableEq, Repr

/-- `SudoProxy.__getattr__` (src/runas/__init__.py lines 123-141) with
the outgoing pipe stream threaded explicitly: names starting with `_`
raise `AttributeError` at line 125; names the target lacks propagate the
`AttributeError` of `getattr(target, attr)` at line 128; otherwise the
wrapper is returned.  No branch writes to the pipe: writing happens only
when the returned wrapper is invoked. -/
def SudoProxy.getattr (t : Target) (attr : String) (out : List Nat) :
    GetattrOutcome × List Nat :=
  if startsWithUnderscore attr then (.attrError attr, out)
  else
    match t.methods attr with
    | none => (.attrError attr, out)
    | some _ => (.wrapper attr, out)

/-- One remote invocation end to end: `__getattr__` followed by the
wrapper body (src/runas/__init__.py lines 131-138) with the helper loop
(`SudoProxy.run`'s loop already past its `READY` frame) servicing the
written frame.  The wrapper pickles `(method_name, args)`, writes one
frame, reads one response frame, unpickles `(success, result)` and
returns the result or re-raises the remote exception. -/
def SudoProxy.callThrough (t : Target) (attr : String) (args : List PVal) :
    Except PyErr PVal :=
  if startsWithUnderscore attr then .error (.attrError attr)
  else
    match t.methods attr with
    | none => .error (.attrError attr)
    | some _ =>
      match StdPipe.write (dumps (callEnv attr args)) with
      | none => .error .structError
      | some framed =>
        match StdPipe.read (SudoProxy.loop t framed) with
        | none => .error .eofError
        | some (rdata, _) =>
          match loads rdata with
          | none => .error .unpicklingError
          | some v =>
            match unpack2 v with
            | none => .error .valueError
            | some (sv, rv) => if pyTruthy sv then .ok rv else .error (.raised rv)

/-- View of `Except` as a sum, used only to derive decidable equality. -/
def exceptToSum {ε α : Type} : Except ε α → ε ⊕ α
  | .error e => .inl e
  | .ok a => .inr a

instance {ε α : Type} [DecidableEq ε] [DecidableEq α] : DecidableEq (Except ε α) :=
  fun x y =>
    decidable_of_iff (exceptToSum x = exceptToSum y)
      (by cases x <;> cases y <;> simp [exceptToSum])

/-- `SudoProxy.close` (src/runas/__init__.py lines 86-89): write the
pickled `"CLOSE"` sentinel as one frame, then read one acknowledgement
frame and set `closed = True`.  The first component is the bytes written
to the pipe; the second is `ok remaining` on success or the raised
error (`EOFError` when the read finds no frame, which propagates out of
`close`). -/
def SudoProxy.close (incoming : List Nat) : List Nat × Except PyErr (List Nat) :=
  match StdPipe.write (dumps (.pstr "CLOSE")) with
  | none => ([], .error .structError)
  | some fr =>
    match StdPipe.read incoming with
    | none => (fr, .error .eofError)
    | some (_, rest) => (fr, .ok rest)

/-- The bytes `close` puts on the wire: one frame carrying the pickled
`"CLOSE"` sentinel. -/
def closeFrame : List Nat := frameOf (.pstr "CLOSE")

/-- Result of `SudoProxy.start` in the model: whether the
`self.close()` handshake was performed before raising, and the outcome.
`outcome = ok` means `start` returned normally. -/
structure StartResult where
  closeRun : Bool
  outcome : Except PyErr Unit
deriving DecidableEq, Repr

/-- `SudoProxy.start` (src/runas/__init__.py lines 72-84) after
`spawn_sudo` returned: `pollExited` is whether `self.proc.poll()`
reported the process already gone (raising `RuntimeError` at line 75);
otherwise one frame is read (an `EOFError` leaves `msg = b""`), and a
message other than `READY` runs `self.close()` and then raises
`RuntimeError("failed to spawn helper app")`; an error raised inside
`close` propagates instead.  After a read-side `EOFError` the stream is
exhausted, so the `close` handshake reads from the empty stream. -/
def SudoProxy.start (pollExited : Bool) (incoming : List Nat) : StartResult :=
  if pollExited then
    ⟨false, .error (.runtimeError "sudo helper process terminated unexpectedly")⟩
  else
    match StdPipe.read incoming with
    | some (msg, rest) =>
      if msg = strBytes "READY" then ⟨false, .ok ()⟩
      else
        match (SudoProxy.close rest).2 with
        | .ok _ => ⟨true, .error (.runtimeError "failed to spawn helper app")⟩
        | .error e => ⟨true, .error e⟩
    | none =>
      match (SudoProxy.close []).2 with
      | .ok _ => ⟨true, .error (.runtimeError "failed to spawn helper app")⟩
      | .error e => ⟨true, .error e⟩

/-- Result of `SudoProxy.terminate` in the model. -/
structure TerminateResult where
  outcome : Except PyErr Unit
  pipeClosed : Bool
  procWaited : Bool
deriving DecidableEq, Repr

/-- `SudoProxy.terminate` (src/runas/__init__.py lines 91-96): run
`close()` unless `self.closed` is already set, then close the pipe
handle, drop it, and wait on the process. -/
def SudoProxy.terminate (closed : Bool) (incoming : List Nat) : TerminateResult :=
  if closed then ⟨.ok (), true, true⟩
  else
    match (SudoProxy.close incoming).2 with
    | .error e => ⟨.error e, false, false⟩
    | .ok _ => ⟨.ok (), true, true⟩

/-- Observable behaviour of the POSIX credential-path `spawn_sudo`
(src/runas/posix.py lines 39-75) after the subprocess is spawned. -/
structure SpawnSudoResult where
  stdinSent : List Nat
  stderrRead : List Nat
  killed : Bool
  outcome : Except PyErr Unit
deriving DecidableEq, Repr

/-- `spawn_sudo` of src/runas/posix.py lines 59-75: write
`password.encode("utf8") + b"\n"` to the child's standard input, read
one byte from its standard error, and unless that byte is `b"@"` (code
64) close the pipes, kill the process and raise
`RuntimeError("wrong password")`.  `stderrStream` is what the child
makes available on standard error; a closed stream yields the empty
read. -/
def posix.spawn_sudo (password : String) (stderrStream : List Nat) : SpawnSudoResult :=
  let sent := strBytes password ++ [10]
  let r := stderrStream.take 1
  if r = [64] then ⟨sent, r, false, .ok ()⟩
  else ⟨sent, r, true, .error (.runtimeError "wrong password")⟩

/-- Windows error code `ERROR_NO_SUCH_LOGON_SESSION`
(src/runas/win32.py line 31). -/
def ERROR_NO_SUCH_LOGON_SESSION : Nat := 1312

/-- Windows error code `ERROR_PRIVILEGE_NOT_HELD`
(src/runas/win32.py line 32). -/
def ERROR_PRIVILEGE_NOT_HELD : Nat := 1314

/-- `can_get_root` of src/runas/win32.py lines 137-179, abstracted over
the Windows API responses: `hasAdminDirect` is the result of
`CheckTokenMembership(None, sid)` on the process token; `linked` is the
linked-token lookup, either the admin membership of the linked token or
the `WindowsError` code raised by `GetTokenInformation`.  The code
returns `True` on direct membership; otherwise error codes 1312 and
1314 mean no linked token and give `False`, any other error re-raises,
and a present linked token answers with its own membership. -/
def win32.can_get_root (hasAdminDirect : Bool) (linked : Except Nat Bool) :
    Except Nat Bool :=
  if hasAdminDirect then .ok true
  else
    match linked with
    | .error e =>
      if e = ERROR_NO_SUCH_LOGON_SESSION then .ok false
      else if e = ERROR_PRIVILEGE_NOT_HELD then .ok false
      else .error e
    | .ok linkedAdmin => .ok linkedAdmin

theorem SudoProxy.runLoop_nil (t : Target) (fuel : Nat) :
    SudoProxy.runLoop t fuel [] = [] := by
  cases fuel with
  | zero => rfl
  | succ f => rfl

/-- The loop's behaviour does not depend on the fuel as soon as the fuel
covers the stream length: each iteration consumes at least 4 bytes. -/
theorem SudoProxy.runLoop_fuel (t : Target) :
    ∀ (f1 : Nat) (s : List Nat) (f2 : Nat), s.length ≤ f1 → s.length ≤ f2 →
      SudoProxy.runLoop t f1 s = SudoProxy.runLoop t f2 s := by
  intro f1
  induction f1 with
  | zero =>
    intro s f2 h1 h2
    have hs : s = [] := List.length_eq_zero.mp (Nat.le_zero.mp h1)
    subst hs
    rw [SudoProxy.runLoop_nil, SudoProxy.runLoop_nil]
  | succ f ih =>
    intro s f2 h1 h2
    cases s with
    | nil => rw [SudoProxy.runLoop_nil, SudoProxy.runLoop_nil]
    | cons x xs =>
      cases f2 with
      | zero => exact absurd h2 (by simp)
      | succ g =>
        cases hr : StdPipe.read (x :: xs) with
        | none => simp only [SudoProxy.runLoop, hr]
        | some p =>
          obtain ⟨data, rest⟩ := p
          have hc := StdPipe.read_consumes _ _ _ hr
          have hrf : rest.length ≤ f := by
            simp only [List.length_cons] at h1 hc
            omega
          have hrg : rest.length ≤ g := by
            simp only [List.length_cons] at h2 hc
            omega
          simp only [SudoProxy.runLoop, hr]
          cases hl : loads data with
          | none => rfl
          | some call =>
            by_cases hcl : call = .pstr "CLOSE"
            · simp [hcl]
            · simp only [if_neg hcl]
              cases hu : unpack2 call with
              | none => rfl
              | some q =>
                obtain ⟨mv, av⟩ := q
                cases hw : StdPipe.write (dumps (dispatchCall t mv av)) with
                | none => simp only [hw]
                | some fr =>
                  simp only [hw]
                  rw [ih rest g hrf hrg]

/-- Unfolding the helper loop on one well-formed Call Envelope frame: the
helper writes one Result Envelope frame and keeps serving the remaining
stream. -/
theorem SudoProxy.loop_call (t : Target) (mv av : PVal) (rest : List Nat)
    (h1 : (dumps (PVal.ptcons mv (.ptcons av .ptnil))).length < 2 ^ 32)
    (h2 : (dumps (dispatchCall t mv av)).length < 2 ^ 32) :
    SudoProxy.loop t (frameOf (PVal.ptcons mv (.ptcons av .ptnil)) ++ rest)
      = frameOfRaw (dumps (dispatchCall t mv av)) ++ SudoProxy.loop t rest := by
  have hstep : ∀ fuel : Nat,
      SudoProxy.runLoop t (fuel + 1)
          (frameOf (PVal.ptcons mv (.ptcons av .ptnil)) ++ rest)
        = frameOfRaw (dumps (dispatchCall t mv av)) ++ SudoProxy.runLoop t fuel rest := by
    intro fuel
    simp only [SudoProxy.runLoop, frameOf, StdPipe.read_frame _ _ h1, loads_dumps,
      unpack2, StdPipe.write_eq _ h2]
    rw [if_neg (by simp)]
  have hfl : (frameOf (PVal.ptcons mv (.ptcons av .ptnil)) ++ rest).length
      = ((dumps (PVal.ptcons mv (.ptcons av .ptnil))).length + rest.length + 3) + 1 := by
    simp only [frameOf, frameOfRaw, List.length_append, pack32_length]
    omega
  unfold SudoProxy.loop
  rw [hfl, hstep]
  congr 1
  exact SudoProxy.runLoop_fuel t _ rest _ (by omega) le_rfl

/-- Unfolding the helper loop on the `"CLOSE"` sentinel frame: the helper
acknowledges with a `"CLOSING"` frame and exits the loop, writing
nothing further regardless of what follows on the stream. -/
theorem SudoProxy.loop_close (t : Target) (rest : List Nat) :
    SudoProxy.loop t (closeFrame ++ rest) = frameOf (.pstr "CLOSING") := by
  have h1 : (dumps (PVal.pstr "CLOSE")).length < 2 ^ 32 := by decide
  have h2 : (dumps (PVal.pstr "CLOSING")).length < 2 ^ 32 := by decide
  have hstep : ∀ fuel : Nat,
      SudoProxy.runLoop t (fuel + 1) (closeFrame ++ rest)
        = frameOfRaw (dumps (PVal.pstr "CLOSING")) := by
    intro fuel
    simp only [SudoProxy.runLoop, closeFrame, frameOf, StdPipe.read_frame _ _ h1,
      loads_dumps, StdPipe.write_eq _ h2]
    simp
  have hfl : (closeFrame ++ rest).length
      = ((dumps (PVal.pstr "CLOSE")).length + rest.length + 3) + 1 := by
    simp only [closeFrame, frameOf, frameOfRaw, List.length_append, pack32_length]
    omega
  unfold SudoProxy.loop
  rw [hfl, hstep]
  rfl

theorem SudoProxy.loop_nil (t : Target) : SudoProxy.loop t [] = [] := by
  unfold SudoProxy.loop
  exact SudoProxy.runLoop_nil t _

theorem StdPipe.read_frame_nil (data : List Nat) (h : data.length < 2 ^ 32) :
    StdPipe.read (frameOfRaw data) = some (data, []) := by
  have hx := StdPipe.read_frame data [] h
  rwa [List.append_nil] at hx

/-- C3 (amended): for every byte payload `P` with `P.length < 2^32` —
the range `struct.pack("I", ...)` accepts — `StdPipe.write` produces the
4-byte-length-prefixed frame and `StdPipe.read` on the receiving end
yields exactly `P`, leaving any following bytes untouched; this includes
the zero-length payload. -/
theorem runas_frame_roundtrip (P rest : List Nat) (h : P.length < 2 ^ 32) :
    StdPipe.write P = some (pack32 P.length ++ P) ∧
      StdPipe.read ((pack32 P.length ++ P) ++ rest) = some (P, rest) := by
  constructor
  · exact StdPipe.write_eq P h
  · exact StdPipe.read_frame P rest h

theorem runas_frame_roundtrip_witness :
    StdPipe.write [10, 20, 30] = some (pack32 3 ++ [10, 20, 30]) ∧
      StdPipe.read ((pack32 3 ++ [10, 20, 30]) ++ [7, 7]) = some ([10, 20, 30], [7, 7]) :=
  runas_frame_roundtrip [10, 20, 30] [7, 7] (by decide)

/-- C3 counterexample: for a payload of length `2^32` the claim as stated
fails — `StdPipe.write` raises `struct.error` (`none`), so no frame is
produced and no read can return the payload. -/
theorem runas_frame_overflow : StdPipe.write (List.replicate (2 ^ 32) 0) = none := by
  unfold StdPipe.write
  rw [if_neg]
  rw [List.length_replicate]
  omega

/-- C4: `StdPipe.read` raises `EOFError` (`none`) when the stream ends
before a full 4-byte length prefix, and when a valid prefix announces
`sz` bytes but the stream ends after a shorter body; it never returns a
truncated payload.  A zero-length message instead returns the empty payload
without error, so the two outcomes are distinguishable. -/
theorem runas_read_truncation (s body rest : List Nat) (sz : Nat)
    (h1 : s.length < 4) (h2 : sz < 2 ^ 32) (h3 : body.length < sz) :
    StdPipe.read s = none ∧
      StdPipe.read (pack32 sz ++ body) = none ∧
      StdPipe.read (pack32 0 ++ rest) = some ([], rest) := by
  refine ⟨?_, ?_, ?_⟩
  · unfold StdPipe.read
    rw [if_pos]
    rw [List.length_take]
    omega
  · have h4 : (pack32 sz).length = 4 := pack32_length _
    have ht : (pack32 sz ++ body).take 4 = pack32 sz := List.take_left' h4
    have hd : (pack32 sz ++ body).drop 4 = body := List.drop_left' h4
    have hb : body.take sz = body := List.take_of_length_le (le_of_lt h3)
    simp only [StdPipe.read, ht, hd, h4, unpack32_pack32 _ h2, hb]
    rw [if_neg (by omega), if_pos h3]
  · have hz := StdPipe.read_frame [] rest (by decide)
    simpa [frameOfRaw] using hz

theorem runas_read_truncation_witness :
    StdPipe.read [1, 2] = none ∧
      StdPipe.read (pack32 5 ++ [9]) = none ∧
      StdPipe.read (pack32 0 ++ [8, 8, 8]) = some ([], [8, 8, 8]) :=
  runas_read_truncation [1, 2] [9] [8, 8, 8] 5 (by decide) (by decide) (by decide)

/-- C5: on the POSIX credential path (src/runas/posix.py lines 59-75)
`spawn_sudo` sends the UTF-8 password followed by a newline to the sudo
child's standard input and reads exactly one byte from its standard
error; whenever that byte is not the `@` marker (byte 64) — including a
closed stream, which yields an empty read — it kills the process and
raises the wrong-credentials failure, whose literal message in the
source is `"wrong password"`.  No retry path exists: the outcome is
fixed by that single byte. -/
theorem runas_spawn_wrong_password (password : String) (stderrStream : List Nat)
    (h : stderrStream.take 1 ≠ [64]) :
    posix.spawn_sudo password stderrStream
      = ⟨strBytes password ++ [10], stderrStream.take 1, true,
          .error (.runtimeError "wrong password")⟩ := by
  unfold posix.spawn_sudo
  rw [if_neg h]

theorem runas_spawn_wrong_password_witness :
    posix.spawn_sudo "pw" [33, 64]
      = ⟨strBytes "pw" ++ [10], [33], true, .error (.runtimeError "wrong password")⟩ :=
  runas_spawn_wrong_password "pw" [33, 64] (by decide)

/-- C9: the Windows `can_get_root` returns `True` exactly when the
direct token or the linked token carries the administrators identity,
and a missing linked token — `GetTokenInformation` failing with
`ERROR_NO_SUCH_LOGON_SESSION` or `ERROR_PRIVILEGE_NOT_HELD` — yields
`False` rather than an error. -/
theorem runas_can_get_root (d la : Bool) (e : Nat)
    (he : e = ERROR_NO_SUCH_LOGON_SESSION ∨ e = ERROR_PRIVILEGE_NOT_HELD) :
    win32.can_get_root d (.ok la) = .ok (d || la) ∧
      win32.can_get_root d (.error e) = .ok d := by
  constructor
  · cases d <;> simp [win32.can_get_root]
  · cases d with
    | true => simp [win32.can_get_root]
    | false =>
      rcases he with he | he <;> simp [win32.can_get_root, he]

theorem runas_can_get_root_witness :
    win32.can_get_root false (.ok true) = .ok (false || true) ∧
      win32.can_get_root false (.error 1312) = .ok false :=
  runas_can_get_root false true 1312 (Or.inl rfl)

/-- C6 (amended): the helper writes the literal `READY` bytes as its
first frame before serving the loop, and the caller reads exactly one
frame before any calls: a `READY` frame makes `start` return leaving the
rest of the stream for the calls.  When the frame read does not equal
`READY`, `start` performs the `close` handshake and then raises
`RuntimeError("failed to spawn helper app")` — or propagates the
handshake's own `EOFError` when no acknowledgement frame arrives.  When
the process has already exited, `start` raises
`RuntimeError("sudo helper process terminated unexpectedly")` without
closing the channel. -/
theorem runas_start_handshake (t : Target) (s rest rest2 msg ack : List Nat)
    (hmsg : msg ≠ strBytes "READY") (hm : msg.length < 2 ^ 32)
    (hack : ack.length < 2 ^ 32) :
    SudoProxy.run t s = frameOfRaw (strBytes "READY") ++ SudoProxy.loop t s ∧
      SudoProxy.start false (frameOfRaw (strBytes "READY") ++ rest) = ⟨false, .ok ()⟩ ∧
      SudoProxy.start false (frameOfRaw msg ++ (frameOfRaw ack ++ rest2))
        = ⟨true, .error (.runtimeError "failed to spawn helper app")⟩ ∧
      SudoProxy.start false (frameOfRaw msg) = ⟨true, .error .eofError⟩ ∧
      SudoProxy.start true s
        = ⟨false, .error (.runtimeError "sudo helper process terminated unexpectedly")⟩ := by
  have hready : (strBytes "READY").length < 2 ^ 32 := by decide
  refine ⟨?_, ?_, ?_, ?_, ?_⟩
  · unfold SudoProxy.run
    rw [StdPipe.write_eq _ hready]
  · simp only [SudoProxy.start, Bool.false_eq_true, if_false,
      StdPipe.read_frame _ _ hready]
    simp
  · have hclose : (SudoProxy.close (frameOfRaw ack ++ rest2)).2 = .ok rest2 := by
      unfold SudoProxy.close
      rw [StdPipe.write_eq _ (by decide), StdPipe.read_frame _ _ hack]
    simp only [SudoProxy.start, Bool.false_eq_true, if_false,
      StdPipe.read_frame _ _ hm, if_neg hmsg, hclose]
  · have hclose0 : (SudoProxy.close []).2 = .error .eofError := by
      unfold SudoProxy.close
      rw [StdPipe.write_eq _ (by decide)]
      rfl
    simp only [SudoProxy.start, Bool.false_eq_true, if_false,
      StdPipe.read_frame_nil _ hm, if_neg hmsg, hclose0]
  · simp [SudoProxy.start]

theorem runas_start_handshake_witness :
    SudoProxy.run ⟨fun _ => none⟩ []
        = frameOfRaw (strBytes "READY") ++ SudoProxy.loop ⟨fun _ => none⟩ [] ∧
      SudoProxy.start false (frameOfRaw (strBytes "READY") ++ []) = ⟨false, .ok ()⟩ ∧
      SudoProxy.start false (frameOfRaw [1] ++ (frameOfRaw [2] ++ []))
        = ⟨true, .error (.runtimeError "failed to spawn helper app")⟩ ∧
      SudoProxy.start false (frameOfRaw [1]) = ⟨true, .error .eofError⟩ ∧
      SudoProxy.start true []
        = ⟨false, .error (.runtimeError "sudo helper process terminated unexpectedly")⟩ :=
  runas_start_handshake ⟨fun _ => none⟩ [] [] [] [1] [2] (by decide) (by decide) (by decide)

/-- C6 counterexample: with the process already exited, `start` raises
`RuntimeError("sudo helper process terminated unexpectedly")` without
running the close handshake (`closeRun = false`), contradicting the
claim that this condition closes the channel and fails with the
helper-failed-to-start error. -/
theorem runas_start_exited_no_close :
    SudoProxy.start true []
      = ⟨false, .error (.runtimeError "sudo helper process terminated unexpectedly")⟩ := by
  simp [SudoProxy.start]

/-- C7 (amended): a single `close()` on a live session succeeds — the
helper loop acknowledges the `CLOSE` sentinel with one `CLOSING` frame
and exits — and `terminate()` called after `close()` already ran
(`closed = true`) does not raise, closes the pipe handle and waits on
the process, leaving it reaped.  Calling `close()` twice, however,
raises `EOFError` (see the counterexample). -/
theorem runas_close_terminate (t : Target) (rest : List Nat) :
    SudoProxy.loop t closeFrame = frameOf (.pstr "CLOSING") ∧
      (SudoProxy.close (frameOf (.pstr "CLOSING"))).2 = .ok [] ∧
      SudoProxy.terminate true rest = ⟨.ok (), true, true⟩ := by
  refine ⟨?_, ?_, ?_⟩
  · have h := SudoProxy.loop_close t []
    rwa [List.append_nil] at h
  · unfold SudoProxy.close
    rw [StdPipe.write_eq _ (by decide)]
    rw [show frameOf (PVal.pstr "CLOSING") = frameOfRaw (dumps (.pstr "CLOSING")) from rfl]
    rw [StdPipe.read_frame_nil _ (by decide)]
  · simp [SudoProxy.terminate]

/-- C7 counterexample: the helper answers only the first `CLOSE` of the
stream — its loop exits after acknowledging — so after a first
successful `close()` consumed the `CLOSING` frame, a second `close()`
reads from the exhausted stream and raises `EOFError`; `close` twice in
a row therefore raises rather than being idempotent. -/
theorem runas_close_twice_eof :
    SudoProxy.loop ⟨fun _ => none⟩ (closeFrame ++ closeFrame) = frameOf (.pstr "CLOSING") ∧
      (SudoProxy.close (frameOf (.pstr "CLOSING"))).2 = .ok [] ∧
      (SudoProxy.close []).2 = .error .eofError := by
  refine ⟨SudoProxy.loop_close _ _, ?_, ?_⟩
  · unfold SudoProxy.close
    rw [StdPipe.write_eq _ (by decide)]
    rw [show frameOf (PVal.pstr "CLOSING") = frameOfRaw (dumps (.pstr "CLOSING")) from rfl]
    rw [StdPipe.read_frame_nil _ (by decide)]
  · unfold SudoProxy.close
    rw [StdPipe.write_eq _ (by decide)]
    rfl

/-- C1: for every method of the target that succeeds without raising and
every tuple of serializable arguments, invoking it through a started
SudoProxy — pickling `(method_name, args)`, writing one frame, the
helper dispatching on the target, reading one response frame and
unpickling the `(success, result)` pair — returns exactly the result of
invoking the method directly on the target.  The two length bounds are
the side conditions under which `struct.pack` can frame the request and
the response. -/
theorem runas_call_roundtrip (t : Target) (attr : String) (args : List PVal)
    (f : List PVal → Except PVal PVal) (r : PVal)
    (hu : startsWithUnderscore attr = false)
    (hm : t.methods attr = some f)
    (hr : f args = .ok r)
    (h1 : (dumps (callEnv attr args)).length < 2 ^ 32)
    (h2 : (dumps (okEnv r)).length < 2 ^ 32) :
    SudoProxy.callThrough t attr args = .ok r := by
  have hd : dispatchCall t (.pstr attr) (tupOf args) = okEnv r := by
    simp only [dispatchCall, hm, pyIter_tupOf, hr]
  have h2' : (dumps (dispatchCall t (.pstr attr) (tupOf args))).length < 2 ^ 32 := by
    rw [hd]
    exact h2
  have hl := SudoProxy.loop_call t (.pstr attr) (tupOf args) [] h1 h2'
  rw [List.append_nil, hd, SudoProxy.loop_nil, List.append_nil] at hl
  have hloop : SudoProxy.loop t (frameOfRaw (dumps (callEnv attr args)))
      = frameOfRaw (dumps (okEnv r)) := hl
  simp only [SudoProxy.callThrough, hu, Bool.false_eq_true, if_false, hm,
    StdPipe.write_eq _ h1, hloop, StdPipe.read_frame_nil _ h2, loads_dumps]
  simp [okEnv, unpack2, pyTruthy]

theorem runas_call_roundtrip_witness :
    SudoProxy.callThrough
        ⟨fun m => if m = "ping" then some (fun _ => .ok (.pstr "pong")) else none⟩
        "ping" [] = .ok (.pstr "pong") :=
  runas_call_roundtrip
    ⟨fun m => if m = "ping" then some (fun _ => .ok (.pstr "pong")) else none⟩
    "ping" [] (fun _ => .ok (.pstr "pong")) (.pstr "pong")
    (by decide) rfl rfl (by decide) (by decide)

/-- C2: when the dispatched target method raises `e`, the helper writes
the failing Result Envelope `(False, e)` back as one frame and its loop
continues to serve the remaining stream; on the caller side the wrapper
decodes the envelope and re-raises `e`. -/
theorem runas_fault_propagation (t : Target) (m : String) (args : List PVal)
    (f : List PVal → Except PVal PVal) (e : PVal) (rest : List Nat)
    (hs : startsWithUnderscore m = false)
    (hm : t.methods m = some f)
    (hf : f args = .error e)
    (h1 : (dumps (callEnv m args)).length < 2 ^ 32)
    (h2 : (dumps (failEnv e)).length < 2 ^ 32) :
    SudoProxy.loop t (frameOf (callEnv m args) ++ rest)
        = frameOf (failEnv e) ++ SudoProxy.loop t rest ∧
      SudoProxy.callThrough t m args = .error (.raised e) := by
  have hd : dispatchCall t (.pstr m) (tupOf args) = failEnv e := by
    simp only [dispatchCall, hm, pyIter_tupOf, hf]
  have h2' : (dumps (dispatchCall t (.pstr m) (tupOf args))).length < 2 ^ 32 := by
    rw [hd]
    exact h2
  constructor
  · have hl := SudoProxy.loop_call t (.pstr m) (tupOf args) rest h1 h2'
    rw [hd] at hl
    exact hl
  · have hl := SudoProxy.loop_call t (.pstr m) (tupOf args) [] h1 h2'
    rw [List.append_nil, hd, SudoProxy.loop_nil, List.append_nil] at hl
    have hloop : SudoProxy.loop t (frameOfRaw (dumps (callEnv m args)))
        = frameOfRaw (dumps (failEnv e)) := hl
    simp only [SudoProxy.callThrough, hs, Bool.false_eq_true, if_false, hm,
      StdPipe.write_eq _ h1, hloop, StdPipe.read_frame_nil _ h2, loads_dumps]
    simp [failEnv, unpack2, pyTruthy]

theorem runas_fault_propagation_witness :
    SudoProxy.loop
        ⟨fun m => if m = "boom" then some (fun _ => .error (.pexc "IOError" "fail")) else none⟩
        (frameOf (callEnv "boom" []) ++ []) =
        frameOf (failEnv (.pexc "IOError" "fail")) ++
          SudoProxy.loop
            ⟨fun m => if m = "boom" then some (fun _ => .error (.pexc "IOError" "fail")) else none⟩
            [] ∧
      SudoProxy.callThrough
          ⟨fun m => if m = "boom" then some (fun _ => .error (.pexc "IOError" "fail")) else none⟩
          "boom" [] = .error (.raised (.pexc "IOError" "fail")) :=
  runas_fault_propagation
    ⟨fun m => if m = "boom" then some (fun _ => .error (.pexc "IOError" "fail")) else none⟩
    "boom" [] (fun _ => .error (.pexc "IOError" "fail")) (.pexc "IOError" "fail") []
    (by decide) rfl rfl (by decide) (by decide)

/-- C8 (amended): the underscore rejection lives on the caller side —
`__getattr__` raises `AttributeError` for any name beginning with `_`,
so the proxy never sends such a call — while the helper dispatch loop
itself resolves whatever name arrives in a Call Envelope; a name that
does not resolve on the target makes `getattr` raise `AttributeError`,
which the loop catches and reports back to the caller as the failing
envelope `(False, AttributeError(m))`, then keeps serving the stream. -/
theorem runas_dispatch_policy (t : Target) (attr m : String) (av : PVal)
    (out rest : List Nat)
    (hu : startsWithUnderscore attr = true)
    (hm : t.methods m = none)
    (h1 : (dumps (PVal.ptcons (.pstr m) (.ptcons av .ptnil))).length < 2 ^ 32)
    (h2 : (dumps (failEnv (.pexc "AttributeError" m))).length < 2 ^ 32) :
    SudoProxy.getattr t attr out = (.attrError attr, out) ∧
      SudoProxy.loop t (frameOf (PVal.ptcons (.pstr m) (.ptcons av .ptnil)) ++ rest)
        = frameOf (failEnv (.pexc "AttributeError" m)) ++ SudoProxy.loop t rest := by
  constructor
  · simp [SudoProxy.getattr, hu]
  · have hd : dispatchCall t (.pstr m) av = failEnv (.pexc "AttributeError" m) := by
      simp only [dispatchCall, hm]
    have h2' : (dumps (dispatchCall t (.pstr m) av)).length < 2 ^ 32 := by
      rw [hd]
      exact h2
    have hl := SudoProxy.loop_call t (.pstr m) av rest h1 h2'
    rw [hd] at hl
    exact hl

theorem runas_dispatch_policy_witness :
    SudoProxy.getattr ⟨fun _ => none⟩ "_internal" [9] = (.attrError "_internal", [9]) ∧
      SudoProxy.loop ⟨fun _ => none⟩
          (frameOf (PVal.ptcons (.pstr "nope") (.ptcons .ptnil .ptnil)) ++ []) =
        frameOf (failEnv (.pexc "AttributeError" "nope")) ++
          SudoProxy.loop ⟨fun _ => none⟩ [] :=
  runas_dispatch_policy ⟨fun _ => none⟩ "_internal" "nope" .ptnil [9] []
    (by decide) rfl (by decide) (by decide)

/-- C8 counterexample: the helper's dispatch loop does not reject names
beginning with the reserved underscore marker — a crafted Call Envelope
naming `_secret` resolves and invokes the method on the target, and the
loop answers with the success envelope carrying its result. -/
theorem runas_underscore_invoked :
    SudoProxy.loop
        ⟨fun m => if m = "_secret" then some (fun _ => .ok (.pstr "leaked")) else none⟩
        (frameOf (PVal.ptcons (.pstr "_secret") (.ptcons .ptnil .ptnil)))
      = frameOf (okEnv (.pstr "leaked")) := by
  have hd : dispatchCall
      ⟨fun m => if m = "_secret" then some (fun _ => .ok (.pstr "leaked")) else none⟩
      (.pstr "_secret") .ptnil = okEnv (.pstr "leaked") := rfl
  have hl := SudoProxy.loop_call
    ⟨fun m => if m = "_secret" then some (fun _ => .ok (.pstr "leaked")) else none⟩
    (.pstr "_secret") .ptnil [] (by decide) (by rw [hd]; decide)
  rw [List.append_nil, hd, SudoProxy.loop_nil, List.append_nil] at hl
  exact hl

/-- C10: attribute access on the proxy for a name beginning with an
underscore, or for a name the target does not possess, raises
`AttributeError` locally and leaves the outgoing pipe stream unchanged —
no Call Envelope crosses the channel — and in particular no wrapper (the
only producer of remote calls) is ever returned for such names. -/
theorem runas_getattr_local (t : Target) (attr : String) (out : List Nat)
    (h : startsWithUnderscore attr = true ∨ t.methods attr = none) :
    SudoProxy.getattr t attr out = (.attrError attr, out) ∧
      ∀ m, (SudoProxy.getattr t attr out).1 ≠ GetattrOutcome.wrapper m := by
  have hres : SudoProxy.getattr t attr out = (.attrError attr, out) := by
    rcases h with h | h
    · simp [SudoProxy.getattr, h]
    · by_cases hb : startsWithUnderscore attr = true
      · simp [SudoProxy.getattr, hb]
      · simp [SudoProxy.getattr, hb, h]
  refine ⟨hres, ?_⟩
  intro m
  rw [hres]
  simp

theorem runas_getattr_local_witness :
    SudoProxy.getattr ⟨fun _ => none⟩ "_x" [5] = (.attrError "_x", [5]) ∧
      ∀ m, (SudoProxy.getattr ⟨fun _ => none⟩ "_x" [5]).1 ≠ GetattrOutcome.wrapper m :=
  runas_getattr_local ⟨fun _ => none⟩ "_x" [5] (Or.inl (by decide))
